import Mathlib

/-!
Shallow embedding of the MCP_AutoAdvisor_Server repository
(`src/mcp_server/tools.py` and `src/server.py`) in Lean 4.

Modelling conventions:
* pandas `DataFrame` rows become Lean structures; a dataset is a `List` of rows.
* Numeric columns (`Year`, `Mileage`, `Price`) are modelled as `Rat`
  (pandas stores them as floats after `pd.to_numeric`; all the program does
  with them is compare, add and divide, which `Rat` models exactly for the
  non-NaN values; NaN cells are modelled by `Option.none`).
* Fallible Python code (a `raise` caught somewhere) is modelled with
  `Except String`.
* The sklearn pipeline internals (OLS fitting) are an external capability per
  the spec; the regressor-fitting function is a parameter `fitReg`, while the
  one-hot encoding layer (configured in `init_data_and_model` with
  `handle_unknown="ignore"`) is modelled explicitly.
-/

deriving instance DecidableEq for Except

namespace AutoAdvisor

/-- A raw row of the source CSV as pandas presents it after `pd.read_csv`
followed by the `pd.to_numeric(..., errors="coerce")` coercions of
`_clean_df` lines 28-30: numeric cells are `none` when the cell was missing
or not convertible, string cells are `none` when the cell was missing (NaN). -/
structure RawRecord where
  make : Option String
  model : Option String
  year : Option Rat
  mileage : Option Rat
  price : Option Rat
  fuelType : Option String
  color : Option String
  transmission : Option String
  options : Option String
  condition : Option String
  accident : Option String
deriving Repr, DecidableEq

/-- A raw table: the CSV header (column names) plus the parsed rows. -/
structure RawTable where
  cols : List String
  rows : List RawRecord
deriving Repr, DecidableEq

/-- A cleaned vehicle record, the row type of the dataset produced by
`_clean_df`: the numeric columns are non-null and the categorical columns are
plain (stripped) strings. -/
structure Record where
  make : String
  model : String
  year : Rat
  mileage : Rat
  price : Rat
  fuelType : String
  color : String
  transmission : String
  options : String
  condition : String
  accident : String
deriving Repr, DecidableEq

/-- `REQUIRED_COLUMNS` from `tools.py` lines 14-17. -/
def REQUIRED_COLUMNS : List String :=
  ["Car Make", "Car Model", "Year", "Mileage", "Price", "Fuel Type",
   "Color", "Transmission", "Options/Features", "Condition", "Accident"]

/-- `_check_columns` (`tools.py` lines 19-23): raises
`ValueError(f"Missing columns in dataset: {missing}")` when a required column
is absent from the frame, otherwise returns the frame unchanged. -/
def _check_columns (t : RawTable) : Except String RawTable :=
  let missing := REQUIRED_COLUMNS.filter (fun c => ¬ c ∈ t.cols)
  if missing.isEmpty then Except.ok t
  else Except.error ("Missing columns in dataset: " ++ toString missing)

/-- Python `str.strip()`: drop leading and trailing whitespace.  (Python
also strips `\v`, `\f` and unicode spaces; no datum in the claims uses
those.) -/
def pyStrip (s : String) : String :=
  ⟨((s.data.dropWhile Char.isWhitespace).reverse.dropWhile
      Char.isWhitespace).reverse⟩

/-- Python `str.lower()`. -/
def pyLower (s : String) : String := ⟨s.data.map Char.toLower⟩

/-- `astype(str).str.strip()` applied to a categorical cell: pandas turns a
NaN cell into the literal string "nan" under `astype(str)`, then strips
whitespace (`_clean_df` lines 33-34). -/
def strCell (o : Option String) : String := pyStrip (o.getD "nan")

/-- The row after the dtype coercions and string normalization of
`_clean_df` lines 28-34 (numeric columns may still be NaN = `none`). -/
structure CoercedRow where
  make : String
  model : String
  year : Option Rat
  mileage : Option Rat
  price : Option Rat
  fuelType : String
  color : String
  transmission : String
  options : Option String
  condition : String
  accident : String
deriving Repr, DecidableEq

/-- Lines 28-34 of `_clean_df`: numeric coercion (already reflected in the
`RawRecord` type) and `astype(str).str.strip()` on the seven categorical
columns (the `Options/Features` column is not normalized by the source). -/
def coerceRow (r : RawRecord) : CoercedRow :=
  { make := strCell r.make
    model := strCell r.model
    year := r.year
    mileage := r.mileage
    price := r.price
    fuelType := strCell r.fuelType
    color := strCell r.color
    transmission := strCell r.transmission
    options := r.options
    condition := strCell r.condition
    accident := strCell r.accident }

/-- The `dropna` of `_clean_df` line 37 on the subset
`["Year","Mileage","Price","Fuel Type","Transmission","Condition","Accident"]`.
After `astype(str)` the four categorical columns of the subset contain no
NaN (a missing cell became the string "nan"), so only the three numeric
columns can actually be null here; the type of `CoercedRow` reflects that. -/
def rowComplete (r : CoercedRow) : Bool :=
  r.year.isSome && r.mileage.isSome && r.price.isSome

/-- `df["Year"] >= 2010 & df["Year"] <= 2025` (line 38). A NaN compares
false in pandas, hence the `none ↦ false` branch. -/
def yearOk (r : CoercedRow) : Bool :=
  match r.year with
  | some y => decide (2010 ≤ y) && decide (y ≤ 2025)
  | none => false

/-- `df["Mileage"] >= 0 & df["Mileage"] <= 300_000` (line 39). -/
def mileageOk (r : CoercedRow) : Bool :=
  match r.mileage with
  | some m => decide (0 ≤ m) && decide (m ≤ 300000)
  | none => false

/-- `df["Price"] > 0 & df["Price"] <= 400_000` (line 40). -/
def priceOk (r : CoercedRow) : Bool :=
  match r.price with
  | some p => decide (0 < p) && decide (p ≤ 400000)
  | none => false

/-- The typed view of a row all of whose filtered numeric columns are
non-null: every row surviving `dropna` satisfies this, so the extraction is
total on the cleaned frame. -/
def toRecord (r : CoercedRow) : Option Record :=
  match r.year, r.mileage, r.price with
  | some y, some m, some p =>
    some { make := r.make, model := r.model, year := y, mileage := m,
           price := p, fuelType := r.fuelType, color := r.color,
           transmission := r.transmission, options := r.options.getD "nan",
           condition := r.condition, accident := r.accident }
  | _, _, _ => none

/-- `_clean_df` (`tools.py` lines 25-41): dtype coercion, string
normalization, `dropna` on the seven columns, then the three plausibility
range filters, applied in source order. The final `filterMap toRecord` is
the typed extraction; it drops nothing (every surviving row has non-null
numerics by `rowComplete`). -/
def _clean_df (rows : List RawRecord) : List Record :=
  ((((rows.map coerceRow).filter rowComplete).filter yearOk).filter
    mileageOk).filter priceOk |>.filterMap toRecord

/-! ### Tool-call arguments

The JSON argument object of a tool call.  Every property name declared in
any of the five schemas of `server.py`'s `list_tools` is a typed optional
field (`none` = key absent); `extra` records the names of properties that
appear in the argument object but are declared in no schema (no handler in
`tools.py` ever reads such a key, so their values are irrelevant to the
program and are not modelled). -/

structure Args where
  carMake : Option String := none
  carModel : Option String := none
  yearMin : Option Int := none
  yearMax : Option Int := none
  priceMax : Option Rat := none
  mileageMax : Option Rat := none
  fuelType : Option String := none
  transmission : Option String := none
  condition : Option String := none
  accident : Option String := none
  limit : Option Int := none
  budgetMax : Option Rat := none
  year : Option Int := none
  mileage : Option Rat := none
  n : Option Int := none
  sortOrder : Option String := none
  extra : List String := []
deriving Repr, DecidableEq

/-- `_norm` (`tools.py` line 77): `str(s).strip().lower()` on a string. -/
def _norm (s : String) : String := pyLower (pyStrip s)

/-- One pass of the exact-filter loop of `_apply_filters` (lines 80-82):
the filter applies only when the key is present AND its value is truthy
(`if col in args and args[col]`); the empty string is falsy in Python, so a
present-but-empty value is skipped.  Both sides are compared after
`strip().lower()`. -/
def exactFilter (field : Record → String) (crit : Option String)
    (q : List Record) : List Record :=
  match crit with
  | none => q
  | some v => if v = "" then q
      else q.filter (fun r => _norm (field r) == _norm v)

/-- A range filter of `_apply_filters` (lines 85-92): applied only when the
key is present with a non-`None` value. -/
def rangeFilter (keep : Record → Rat → Bool) (bound : Option Rat)
    (q : List Record) : List Record :=
  match bound with
  | none => q
  | some b => q.filter (fun r => keep r b)

/-- `_apply_filters` (`tools.py` lines 75-94): the six exact filters in
source order, then the four range filters.  `int(args["Year_min"])` is the
`Int → Rat` coercion (the schema types `Year_min`/`Year_max` as integers);
`float(args["Price_max"])` is the identity on our `Rat` model. -/
def _apply_filters (df : List Record) (args : Args) : List Record :=
  let q := df
  let q := exactFilter Record.make args.carMake q
  let q := exactFilter Record.model args.carModel q
  let q := exactFilter Record.fuelType args.fuelType q
  let q := exactFilter Record.transmission args.transmission q
  let q := exactFilter Record.condition args.condition q
  let q := exactFilter Record.accident args.accident q
  let q := rangeFilter (fun r b => decide (b ≤ r.year)) (args.yearMin.map (Int.cast)) q
  let q := rangeFilter (fun r b => decide (r.year ≤ b)) (args.yearMax.map (Int.cast)) q
  let q := rangeFilter (fun r b => decide (r.price ≤ b)) args.priceMax q
  let q := rangeFilter (fun r b => decide (r.mileage ≤ b)) args.mileageMax q
  q

/-- The record-inclusion predicate in the literal words of the spec /
claim C1: a record satisfies the criteria iff it meets every exact-match
predicate PRESENT in the criteria (case-insensitive trimmed string
equality) and every numeric bound present.  Here "present" is `Option.isSome`,
with no carve-out for empty values. -/
def satisfiesPresent (a : Args) (r : Record) : Bool :=
  (match a.carMake with | none => true | some v => _norm r.make == _norm v) &&
  (match a.carModel with | none => true | some v => _norm r.model == _norm v) &&
  (match a.fuelType with | none => true | some v => _norm r.fuelType == _norm v) &&
  (match a.transmission with | none => true | some v => _norm r.transmission == _norm v) &&
  (match a.condition with | none => true | some v => _norm r.condition == _norm v) &&
  (match a.accident with | none => true | some v => _norm r.accident == _norm v) &&
  (match a.yearMin with | none => true | some m => decide ((m : Rat) ≤ r.year)) &&
  (match a.yearMax with | none => true | some m => decide (r.year ≤ (m : Rat))) &&
  (match a.priceMax with | none => true | some b => decide (r.price ≤ b)) &&
  (match a.mileageMax with | none => true | some b => decide (r.mileage ≤ b))

/-- One exact-match predicate as the code decides it: no constraint when
the key is absent OR its value is the empty string (Python truthiness),
otherwise case-insensitive trimmed equality. -/
def exactPred (field : Record → String) (crit : Option String) (r : Record) : Bool :=
  match crit with
  | none => true
  | some v => v = "" || _norm (field r) == _norm v

/-- One numeric-bound predicate: no constraint when the key is absent. -/
def rangePred (keep : Record → Rat → Bool) (bound : Option Rat) (r : Record) : Bool :=
  match bound with
  | none => true
  | some b => keep r b

/-- The record-inclusion predicate that the code actually decides: as
`satisfiesPresent`, except that an exact-match predicate constrains only
when its value is present AND non-empty (Python truthiness of the value in
`if col in args and args[col]`). -/
def satisfiesNonEmpty (a : Args) (r : Record) : Bool :=
  exactPred Record.make a.carMake r &&
  (exactPred Record.model a.carModel r &&
  (exactPred Record.fuelType a.fuelType r &&
  (exactPred Record.transmission a.transmission r &&
  (exactPred Record.condition a.condition r &&
  (exactPred Record.accident a.accident r &&
  (rangePred (fun r b => decide (b ≤ r.year)) (a.yearMin.map Int.cast) r &&
  (rangePred (fun r b => decide (r.year ≤ b)) (a.yearMax.map Int.cast) r &&
  (rangePred (fun r b => decide (r.price ≤ b)) a.priceMax r &&
  rangePred (fun r b => decide (r.mileage ≤ b)) a.mileageMax r))))))))

/-! ### Sorting and projections -/

/-- The key order used by `sort_values(by=["Price","Year"],
ascending=[True, False])`: price ascending, and for equal price, year
descending. -/
def keyLe (p₁ y₁ p₂ y₂ : Rat) : Prop := p₁ < p₂ ∨ (p₁ = p₂ ∧ y₂ ≤ y₁)

instance (p₁ y₁ p₂ y₂ : Rat) : Decidable (keyLe p₁ y₁ p₂ y₂) := by
  unfold keyLe; infer_instance

/-- The `(Price asc, Year desc)` order lifted to any row type through its
price and year projections. -/
def byKey (price year : α → Rat) (a b : α) : Prop :=
  keyLe (price a) (year a) (price b) (year b)

instance (price year : α → Rat) : DecidableRel (byKey price year) := fun a b => by
  unfold byKey; infer_instance

instance (price year : α → Rat) : IsTotal α (byKey price year) :=
  ⟨fun a b => by
    unfold byKey keyLe
    rcases lt_trichotomy (price a) (price b) with h | h | h
    · exact Or.inl (Or.inl h)
    · rcases le_total (year b) (year a) with hy | hy
      · exact Or.inl (Or.inr ⟨h, hy⟩)
      · exact Or.inr (Or.inr ⟨h.symm, hy⟩)
    · exact Or.inr (Or.inl h)⟩

instance (price year : α → Rat) : IsTrans α (byKey price year) :=
  ⟨fun a b c h₁ h₂ => by
    unfold byKey keyLe at *
    rcases h₁ with h₁ | ⟨he₁, hy₁⟩
    · rcases h₂ with h₂ | ⟨he₂, _⟩
      · exact Or.inl (h₁.trans h₂)
      · exact Or.inl (he₂ ▸ h₁)
    · rcases h₂ with h₂ | ⟨he₂, hy₂⟩
      · exact Or.inl (he₁ ▸ h₂)
      · exact Or.inr ⟨he₁.trans he₂, hy₂.trans hy₁⟩⟩

/-- `tool_filter_cars` projects the frame to the column list of
`tools.py` line 100 (all columns but `Options/Features`). -/
structure FilterOut where
  make : String
  model : String
  year : Rat
  mileage : Rat
  price : Rat
  fuelType : String
  transmission : String
  condition : String
  accident : String
  color : String
deriving Repr, DecidableEq

def projFilterOut (r : Record) : FilterOut :=
  { make := r.make, model := r.model, year := r.year, mileage := r.mileage,
    price := r.price, fuelType := r.fuelType, transmission := r.transmission,
    condition := r.condition, accident := r.accident, color := r.color }

/-- `tool_recommend` / `tool_top_cars` project to the column list without
`Color` (`tools.py` lines 110 and 140). -/
structure RecOut where
  make : String
  model : String
  year : Rat
  mileage : Rat
  price : Rat
  fuelType : String
  transmission : String
  condition : String
  accident : String
deriving Repr, DecidableEq

def projRecOut (r : Record) : RecOut :=
  { make := r.make, model := r.model, year := r.year, mileage := r.mileage,
    price := r.price, fuelType := r.fuelType, transmission := r.transmission,
    condition := r.condition, accident := r.accident }

/-- `DataFrame.head(n)` semantics: for `n ≥ 0` the first `n` rows; for
negative `n` pandas documents "all rows except the last `|n|` rows". -/
def pdHead (nn : Int) (l : List α) : List α :=
  if 0 ≤ nn then l.take nn.toNat else l.take (l.length - (-nn).toNat)

/-- `sort_values` by price only, ascending. -/
def priceAsc (a b : Record) : Prop := a.price ≤ b.price

/-- `sort_values` by price only, descending. -/
def priceDesc (a b : Record) : Prop := b.price ≤ a.price

instance : DecidableRel priceAsc := fun a b =>
  inferInstanceAs (Decidable (a.price ≤ b.price))

instance : DecidableRel priceDesc := fun a b =>
  inferInstanceAs (Decidable (b.price ≤ a.price))

/-- "sorted non-decreasing by Price with ties broken non-increasing by
Year", for any row type with price and year projections. -/
def sortedPriceYear (price year : α → Rat) (l : List α) : Prop :=
  List.Pairwise (fun x y => price x ≤ price y ∧ (price x = price y → year y ≤ year x)) l

/-! ### The five tool handlers.

The embedding models a pandas `sort_values` call as insertion sort over the
corresponding key order; `sort_values`'s order among fully tied rows is
unspecified (quicksort), the embedding fixes one such order. -/

/-- `tool_filter_cars` (`tools.py` lines 97-102): filter, project, sort by
`(Price asc, Year desc)`, truncate to `limit` (default 20); returns
`{count, results}` with `count = len(out)`. -/
def tool_filter_cars (df : List Record) (args : Args) : Nat × List FilterOut :=
  let q := _apply_filters df args
  let lim := args.limit.getD 20
  let out := pdHead lim
    (List.insertionSort (byKey FilterOut.price FilterOut.year) (q.map projFilterOut))
  (out.length, out)

/-- `tool_recommend` (`tools.py` lines 104-112): raises
`ValueError("budget_max is required")` when `budget_max` is absent;
otherwise re-filters with `Price_max` overwritten by `budget_max`, sorts by
`(Price asc, Year desc)`, projects, truncates to `limit` (default 10);
returns `{budget_max, count, recommendations}`. -/
def tool_recommend (df : List Record) (args : Args) :
    Except String (Rat × Nat × List RecOut) :=
  match args.budgetMax with
  | none => Except.error "budget_max is required"
  | some b =>
    let argsLocal := { args with priceMax := some b }
    let q := _apply_filters df argsLocal
    let out := pdHead (args.limit.getD 10)
      ((List.insertionSort (byKey Record.price Record.year) q).map projRecOut)
    Except.ok (b, out.length, out)

/-- `tool_average_price` (`tools.py` lines 129-133): returns
`{filters, average_price, samples}` with `average_price = None` on an empty
subset and the mean of `Price` otherwise. -/
def tool_average_price (df : List Record) (args : Args) :
    Args × Option Rat × Nat :=
  let q := _apply_filters df args
  let avg := if q.isEmpty then none else some ((q.map Record.price).sum / q.length)
  (args, avg, q.length)

/-- `tool_top_cars` (`tools.py` lines 135-142): sorts by price ascending
when `sort_order` is "cheap" (the default), descending otherwise; projects,
truncates to `n` (default 10); returns `{order, results}`. -/
def tool_top_cars (df : List Record) (args : Args) : String × List RecOut :=
  let q := _apply_filters df args
  let nv := args.n.getD 10
  let order := args.sortOrder.getD "cheap"
  let sorted := if order == "cheap" then List.insertionSort priceAsc q
                else List.insertionSort priceDesc q
  let out := pdHead nv (sorted.map projRecOut)
  (order, out)

/-! ### The prediction pipeline (`init_data_and_model`, `tool_estimate_price`) -/

def FEATURE_COLS_NUMERIC : List String := ["Year", "Mileage"]

def FEATURE_COLS_CATEG : List String :=
  ["Fuel Type", "Transmission", "Condition", "Accident", "Car Make", "Car Model"]

/-- `feature_cols_numeric + feature_cols_categ` (`tools.py` line 72). -/
def FEATURE_COLUMNS : List String := FEATURE_COLS_NUMERIC ++ FEATURE_COLS_CATEG

/-- The categorical vocabulary observed at fit time, one list per
categorical feature (the `categories_` of the fitted `OneHotEncoder`).
sklearn stores each list sorted; the embedding keeps first-occurrence order
(`dedup`), which has the same membership and only permutes indicator
positions. -/
structure Vocab where
  fuelTypes : List String
  transmissions : List String
  conditions : List String
  accidents : List String
  makes : List String
  models : List String
deriving Repr, DecidableEq

def mkVocab (df : List Record) : Vocab :=
  { fuelTypes := (df.map Record.fuelType).dedup
    transmissions := (df.map Record.transmission).dedup
    conditions := (df.map Record.condition).dedup
    accidents := (df.map Record.accident).dedup
    makes := (df.map Record.make).dedup
    models := (df.map Record.model).dedup }

/-- One-hot encoding of a single categorical value over the fit-time
vocabulary, with `handle_unknown="ignore"` (`tools.py` line 58): a value
outside the vocabulary yields the all-zero indicator vector. -/
def encodeCat (cats : List String) (v : String) : List Rat :=
  cats.map (fun c => if c = v then 1 else 0)

/-- Modelled from the spec: the linear regressor consumed as a capability
("fit(X,y) → predictor", "predict(row) → scalar"); its prediction is the
affine map coefficients ⬝ row + intercept. -/
structure LinReg where
  coef : List Rat
  intercept : Rat
deriving Repr, DecidableEq

/-- Modelled from the spec: `predict(row) → scalar` of the linear
regressor. -/
def LinReg.predictRow (m : LinReg) (x : List Rat) : Rat :=
  (List.zipWith (· * ·) m.coef x).sum + m.intercept

/-- The fitted `Pipeline` of `init_data_and_model`: the fitted encoder
(its vocabulary) composed with the fitted regressor. -/
structure PipelineModel where
  voc : Vocab
  reg : LinReg
deriving Repr, DecidableEq

/-- The type of the regressor-fitting capability (`LinearRegression.fit` on
the encoded design matrix): an external deterministic function per the
spec; the development is parametric in it. -/
def FitFun : Type := List (List Rat) → List Rat → LinReg

/-- The feature vector of one row, in `feature_columns` order
(`["Year","Mileage"]` passthrough, then the six one-hot blocks in
`feature_cols_categ` order). -/
def encodeRow (voc : Vocab) (year mileage : Rat)
    (fuelType transmission condition accident make modelv : String) : List Rat :=
  [year, mileage]
    ++ encodeCat voc.fuelTypes fuelType
    ++ encodeCat voc.transmissions transmission
    ++ encodeCat voc.conditions condition
    ++ encodeCat voc.accidents accident
    ++ encodeCat voc.makes make
    ++ encodeCat voc.models modelv

def encodeRecord (voc : Vocab) (r : Record) : List Rat :=
  encodeRow voc r.year r.mileage r.fuelType r.transmission r.condition
    r.accident r.make r.model

/-- `model.fit(X, y)` of `init_data_and_model` (lines 55-68): fit the
encoder's vocabulary on the cleaned frame and the regressor on the encoded
design matrix against `Price`. -/
def buildPipeline (fitReg : FitFun) (df : List Record) : PipelineModel :=
  let voc := mkVocab df
  { voc := voc
    reg := fitReg (df.map (encodeRecord voc)) (df.map Record.price) }

/-- The normalized input echo built by `tool_estimate_price` lines 115-124
(the `payload` dict). -/
structure EstPayload where
  carMake : String
  carModel : String
  year : Int
  mileage : Rat
  fuelType : String
  transmission : String
  condition : String
  accident : String
deriving Repr, DecidableEq

/-- `model.predict(X_pred)[0]` for the single-row frame built from the
payload. -/
def PipelineModel.predict (m : PipelineModel) (p : EstPayload) : Rat :=
  m.reg.predictRow (encodeRow m.voc (p.year : Rat) p.mileage p.fuelType
    p.transmission p.condition p.accident p.carMake p.carModel)

/-- `tool_estimate_price` (`tools.py` lines 114-127): builds the payload
applying the defaults (`Car Make`/`Car Model` default `""`, `Condition`
default "Used", `Accident` default "No"); a missing required key raises
`KeyError` (the first of Year, Mileage, Fuel Type, Transmission in the
dict-literal evaluation order; the error message is the missing key's
name).  `feature_columns` is used by the source only to order the columns
of the one-row frame, which the fitted `ColumnTransformer` then selects by
name. -/
def tool_estimate_price (model : PipelineModel) (_featureColumns : List String)
    (args : Args) : Except String (EstPayload × Rat) :=
  match args.year with
  | none => Except.error "Year"
  | some y =>
  match args.mileage with
  | none => Except.error "Mileage"
  | some mi =>
  match args.fuelType with
  | none => Except.error "Fuel Type"
  | some ft =>
  match args.transmission with
  | none => Except.error "Transmission"
  | some tr =>
  let payload : EstPayload :=
    { carMake := args.carMake.getD "", carModel := args.carModel.getD "",
      year := y, mileage := mi, fuelType := ft, transmission := tr,
      condition := args.condition.getD "Used",
      accident := args.accident.getD "No" }
  Except.ok (payload, model.predict payload)

/-! ### The dispatcher (`server.py`) -/

/-- The process-wide `STATE` dict of `server.py` lines 43-47. -/
structure ServerState where
  df : Option (List Record)
  model : Option PipelineModel
  featureColumns : Option (List String)
deriving Repr, DecidableEq

/-- `STATE` at process start: all three slots `None`. -/
def initialState : ServerState :=
  { df := none, model := none, featureColumns := none }

/-- `init_data_and_model` (`tools.py` lines 43-72): read the CSV (the
`RawTable` is the parse result), `_check_columns` (whose `ValueError`
propagates), clean, fit the pipeline, and store dataset, model and feature
columns into the state.  `model.fit` is the external capability `fitReg`,
modelled as total. -/
def init_data_and_model (fitReg : FitFun) (t : RawTable) (st : ServerState) :
    Except String ServerState :=
  match _check_columns t with
  | Except.error e => Except.error e
  | Except.ok t' =>
    let df := _clean_df t'.rows
    Except.ok { st with df := some df, model := some (buildPipeline fitReg df),
                        featureColumns := some FEATURE_COLUMNS }

/-- The lazy-initialization guard of `call_tool` (`server.py` lines
157-158): initialize iff `STATE["df"] is None or STATE["model"] is None`.
It runs before the `try` block, so an initialization error propagates. -/
def lazyInit (fitReg : FitFun) (t : RawTable) (st : ServerState) :
    Except String ServerState :=
  if st.df.isNone || st.model.isNone then init_data_and_model fitReg t st
  else Except.ok st

/-- The JSON payload serialized into the response text block: one success
shape per tool, or the error object.  The unknown-tool error dict has no
`args` key, the caught-exception one does; `err`'s second component
distinguishes them. -/
inductive Payload where
  | filterCars (count : Nat) (results : List FilterOut)
  | recommend (budgetMax : Rat) (count : Nat) (recommendations : List RecOut)
  | estimate (input : EstPayload) (estimatedPrice : Rat)
  | averagePrice (filters : Args) (averagePrice : Option Rat) (samples : Nat)
  | topCars (order : String) (results : List RecOut)
  | err (msg : String) (args : Option Args)
deriving Repr, DecidableEq

/-- `call_tool` (`server.py` lines 151-180): lazy init (errors propagate,
it is outside the `try`), then the `elif` dispatch on the tool name inside
`try/except`, every raised handler error becoming
`{"error": str(e), "args": arguments}` and an unrecognized name becoming
`{"error": "Unknown tool: <name>"}`.  The `none` state branches model the
`TypeError` a handler raises when its state slot is `None` (unreachable
after the lazy-init guard for `df`/`model`); that exception is caught by
the same `except`. -/
def call_tool (fitReg : FitFun) (t : RawTable) (st : ServerState)
    (name : String) (args : Args) : Except String (ServerState × Payload) :=
  match lazyInit fitReg t st with
  | Except.error e => Except.error e
  | Except.ok st' =>
    let payload :=
      if name = "filter_cars" then
        match st'.df with
        | some df =>
          let r := tool_filter_cars df args
          Payload.filterCars r.1 r.2
        | none => Payload.err "df is None" (some args)
      else if name = "recommend" then
        match st'.df with
        | some df =>
          match tool_recommend df args with
          | Except.ok (b, c, out) => Payload.recommend b c out
          | Except.error e => Payload.err e (some args)
        | none => Payload.err "df is None" (some args)
      else if name = "estimate_price" then
        match st'.model, st'.featureColumns with
        | some m, some fc =>
          match tool_estimate_price m fc args with
          | Except.ok (p, pr) => Payload.estimate p pr
          | Except.error e => Payload.err e (some args)
        | _, _ => Payload.err "model is None" (some args)
      else if name = "average_price" then
        match st'.df with
        | some df =>
          let r := tool_average_price df args
          Payload.averagePrice r.1 r.2.1 r.2.2
        | none => Payload.err "df is None" (some args)
      else if name = "top_cars" then
        match st'.df with
        | some df =>
          let r := tool_top_cars df args
          Payload.topCars r.1 r.2
        | none => Payload.err "df is None" (some args)
      else Payload.err ("Unknown tool: " ++ name) none
    Except.ok (st', payload)

/-- A declared tool schema of `list_tools` (`server.py` lines 49-149):
the allowed property names, the required ones, and the
`additionalProperties` flag. -/
structure ToolSchema where
  name : String
  properties : List String
  required : List String
  additionalProperties : Bool
deriving Repr, DecidableEq

/-- The five schemas exactly as declared by `list_tools`. -/
def toolSchemas : List ToolSchema :=
  [ { name := "filter_cars"
      properties := ["Car Make", "Car Model", "Year_min", "Year_max",
        "Price_max", "Mileage_max", "Fuel Type", "Transmission", "Condition",
        "Accident", "limit"]
      required := []
      additionalProperties := false },
    { name := "recommend"
      properties := ["budget_max", "Car Make", "Fuel Type", "Transmission",
        "Condition", "Accident", "Year_min", "limit"]
      required := ["budget_max"]
      additionalProperties := false },
    { name := "estimate_price"
      properties := ["Car Make", "Car Model", "Year", "Mileage", "Fuel Type",
        "Transmission", "Condition", "Accident"]
      required := ["Year", "Mileage", "Fuel Type", "Transmission"]
      additionalProperties := false },
    { name := "average_price"
      properties := ["Car Make", "Car Model", "Fuel Type", "Transmission",
        "Condition", "Accident", "Year_min", "Year_max"]
      required := []
      additionalProperties := false },
    { name := "top_cars"
      properties := ["n", "sort_order", "Car Make", "Fuel Type",
        "Transmission", "Condition", "Accident"]
      required := []
      additionalProperties := false } ]

/-- The five declared tool names. -/
def toolNames : List String :=
  ["filter_cars", "recommend", "estimate_price", "average_price", "top_cars"]

/-! ### Concrete fixtures used by witnesses and counterexamples -/

/-- A trivial concrete regressor-fitting capability used to instantiate the
`fitReg` parameter in closed statements. -/
def fitReg0 : FitFun := fun _ _ => { coef := [], intercept := 0 }

def toyota : Record :=
  { make := "Toyota", model := "Corolla", year := 2018, mileage := 30000,
    price := 12000, fuelType := "Gasoline", color := "Red",
    transmission := "Automatic", options := "", condition := "Used",
    accident := "No" }

def honda : Record :=
  { make := "Honda", model := "Civic", year := 2016, mileage := 50000,
    price := 9000, fuelType := "Gasoline", color := "Blue",
    transmission := "Manual", options := "", condition := "Used",
    accident := "No" }

def rawToyota : RawRecord :=
  { make := some "Toyota", model := some "Corolla", year := some 2018,
    mileage := some 30000, price := some 12000, fuelType := some "Gasoline",
    color := some "Red", transmission := some "Automatic", options := some "",
    condition := some "Used", accident := some "No" }

/-- A well-formed source table holding the single Toyota row. -/
def rawGood : RawTable := { cols := REQUIRED_COLUMNS, rows := [rawToyota] }

/-- A source table whose header has none of the required columns. -/
def rawBad : RawTable := { cols := [], rows := [] }

/-- The server state after a successful initialization from `rawGood` with
the trivial regressor: dataset `[toyota]`, fitted pipeline, feature
columns. -/
def stInit0 : ServerState :=
  { df := some [toyota], model := some (buildPipeline fitReg0 [toyota]),
    featureColumns := some FEATURE_COLUMNS }

/-! ### Filter characterization (claims C1, C10) -/

theorem exactFilter_eq_filter (field : Record → String) (crit : Option String)
    (q : List Record) :
    exactFilter field crit q = q.filter (fun r => exactPred field crit r) := by
  cases crit with
  | none => simp [exactFilter, exactPred]
  | some v =>
    by_cases h : v = "" <;> simp [exactFilter, exactPred, h]

theorem rangeFilter_eq_filter (keep : Record → Rat → Bool) (bound : Option Rat)
    (q : List Record) :
    rangeFilter keep bound q = q.filter (fun r => rangePred keep bound r) := by
  cases bound <;> simp [rangeFilter, rangePred]

theorem bool_chain_comm (b₁ b₂ b₃ b₄ b₅ b₆ b₇ b₈ b₉ b₁₀ : Bool) :
    (b₁₀ && (b₉ && (b₈ && (b₇ && (b₆ && (b₅ && (b₄ && (b₃ && (b₂ && b₁))))))))) =
      (b₁ && (b₂ && (b₃ && (b₄ && (b₅ && (b₆ && (b₇ && (b₈ && (b₉ && b₁₀))))))))) := by
  revert b₁ b₂ b₃ b₄ b₅ b₆ b₇ b₈ b₉ b₁₀
  decide

theorem applyFilters_eq_filter (df : List Record) (a : Args) :
    _apply_filters df a = df.filter (satisfiesNonEmpty a) := by
  simp only [_apply_filters, exactFilter_eq_filter, rangeFilter_eq_filter,
    List.filter_filter]
  exact List.filter_congr (fun r _ => bool_chain_comm _ _ _ _ _ _ _ _ _ _)

/-- Claim C1 (amended): for every cleaned dataset and criteria, the filter
operation returns exactly the records satisfying every exact-match
predicate present WITH A NON-EMPTY VALUE (case-insensitive trimmed
equality) and every numeric bound present; with no criteria it returns the
whole dataset. -/
theorem C1_filter_exact (df : List Record) (a : Args) :
    _apply_filters df a = df.filter (satisfiesNonEmpty a) ∧
    (a = ({} : Args) → _apply_filters df a = df) := by
  refine ⟨applyFilters_eq_filter df a, fun h => ?_⟩
  subst h
  rw [applyFilters_eq_filter]
  simp [satisfiesNonEmpty, exactPred, rangePred]

/-- Witness for C1: filtering the one-record dataset with empty criteria
returns the whole dataset. -/
theorem C1_witness : _apply_filters [toyota] ({} : Args) = [toyota] :=
  (C1_filter_exact [toyota] {}).2 rfl

/-- Counterexample to C1 as stated: with the criteria `{Car Make: ""}` the
exact-match predicate IS present, the Toyota record does not satisfy it
(`"toyota" ≠ ""` after trimming/lowering), yet the filter returns the
record — the code skips a present-but-falsy exact criterion. -/
theorem C1_counterexample :
    _apply_filters [toyota] { carMake := some "" } = [toyota] ∧
    satisfiesPresent { carMake := some "" } toyota = false := by
  constructor
  · decide
  · decide

/-- Claim C10: an exact-match criterion present with the empty string as
value is skipped: filtering behaves exactly as if the field were absent,
for each of the six exact-match fields. -/
theorem C10_empty_exact_skipped (df : List Record) (a : Args) :
    _apply_filters df { a with carMake := some "" } =
      _apply_filters df { a with carMake := none } ∧
    _apply_filters df { a with carModel := some "" } =
      _apply_filters df { a with carModel := none } ∧
    _apply_filters df { a with fuelType := some "" } =
      _apply_filters df { a with fuelType := none } ∧
    _apply_filters df { a with transmission := some "" } =
      _apply_filters df { a with transmission := none } ∧
    _apply_filters df { a with condition := some "" } =
      _apply_filters df { a with condition := none } ∧
    _apply_filters df { a with accident := some "" } =
      _apply_filters df { a with accident := none } := by
  refine ⟨?_, ?_, ?_, ?_, ?_, ?_⟩ <;> simp [_apply_filters, exactFilter]

/-! ### Sortedness and truncation (claim C5) -/

theorem keyLe_imp {p₁ y₁ p₂ y₂ : Rat} (h : keyLe p₁ y₁ p₂ y₂) :
    p₁ ≤ p₂ ∧ (p₁ = p₂ → y₂ ≤ y₁) := by
  rcases h with h | ⟨he, hy⟩
  · exact ⟨le_of_lt h, fun he => absurd he h.ne⟩
  · exact ⟨le_of_eq he, fun _ => hy⟩

theorem pdHead_sublist (nn : Int) (l : List α) : (pdHead nn l).Sublist l := by
  unfold pdHead
  split <;> exact List.take_sublist _ _

theorem pdHead_length_le {nn : Int} (l : List α) (h : 0 ≤ nn) :
    ((pdHead nn l).length : Int) ≤ nn := by
  unfold pdHead
  rw [if_pos h, List.length_take]
  calc ((min nn.toNat l.length : Nat) : Int) ≤ (nn.toNat : Int) := by
        exact_mod_cast Nat.min_le_left _ _
    _ = nn := Int.toNat_of_nonneg h

/-- Claim C5 (amended): `filter_cars` results and `recommend`
recommendations are sorted non-decreasing by Price with ties non-increasing
by Year, `count` equals the length of the returned list, and the length is
at most the `limit` argument (default 20 resp. 10) whenever that limit is
non-negative (pandas `head(n)` with negative `n` keeps all but the last
`|n|` rows, so a negative limit does not bound the length). -/
theorem C5_sorted_and_limited (df : List Record) (a : Args) :
    (sortedPriceYear FilterOut.price FilterOut.year (tool_filter_cars df a).2 ∧
      (tool_filter_cars df a).1 = (tool_filter_cars df a).2.length ∧
      (0 ≤ a.limit.getD 20 →
        (((tool_filter_cars df a).2.length : Int) ≤ a.limit.getD 20))) ∧
    (∀ b c out, tool_recommend df a = Except.ok (b, c, out) →
      sortedPriceYear RecOut.price RecOut.year out ∧
      c = out.length ∧
      (0 ≤ a.limit.getD 10 → ((out.length : Int) ≤ a.limit.getD 10))) := by
  constructor
  · refine ⟨?_, rfl, fun h => pdHead_length_le _ h⟩
    show List.Pairwise _ (pdHead (a.limit.getD 20)
      (List.insertionSort (byKey FilterOut.price FilterOut.year)
        ((_apply_filters df a).map projFilterOut)))
    exact (List.Pairwise.sublist (pdHead_sublist _ _)
      (List.sorted_insertionSort (byKey FilterOut.price FilterOut.year) _)).imp
      (fun hab => keyLe_imp hab)
  · intro b c out h
    cases hb : a.budgetMax with
    | none => simp [tool_recommend, hb] at h
    | some b' =>
      simp only [tool_recommend, hb, Except.ok.injEq, Prod.mk.injEq] at h
      obtain ⟨hb', hc, hout⟩ := h
      subst hout
      refine ⟨?_, hc.symm, fun h0 => pdHead_length_le _ h0⟩
      refine (List.Pairwise.sublist (pdHead_sublist _ _) ?_).imp
        (fun hab => keyLe_imp hab)
      have hq := List.sorted_insertionSort (byKey Record.price Record.year)
        (_apply_filters df { a with priceMax := some b' })
      exact List.pairwise_map.mpr hq

/-- Witness for C5 at a concrete dataset: the default limits are
non-negative and the bounds hold; `recommend` at budget 10000 returns
exactly the Honda row, sorted. -/
theorem C5_witness :
    (((tool_filter_cars [toyota, honda] ({} : Args)).2.length : Int) ≤
      ({} : Args).limit.getD 20) ∧
    tool_recommend [toyota, honda] { budgetMax := some 10000 } =
      Except.ok (10000, 1, [projRecOut honda]) ∧
    sortedPriceYear RecOut.price RecOut.year [projRecOut honda] :=
  ⟨(C5_sorted_and_limited [toyota, honda] {}).1.2.2 (by decide),
   by decide,
   ((C5_sorted_and_limited [toyota, honda] { budgetMax := some 10000 }).2
     10000 1 [projRecOut honda] (by decide)).1⟩

/-- Counterexample to C5 as stated: with `limit = -1` on a two-record
dataset, `filter_cars` returns one row (pandas `head(-1)` keeps all but the
last row), and `1 ≤ -1` is false — the returned length is not at most the
limit argument. -/
theorem C5_counterexample :
    (tool_filter_cars [toyota, honda] { limit := some (-1) }).1 = 1 ∧
    (tool_filter_cars [toyota, honda] { limit := some (-1) }).2 =
      [projFilterOut honda] ∧
    ¬ (((tool_filter_cars [toyota, honda] { limit := some (-1) }).2.length : Int) ≤
        ({ limit := some (-1) } : Args).limit.getD 20) := by
  refine ⟨by decide, by decide, by decide⟩

/-! ### Cleaning invariants (claim C6) -/

/-- Claim C6: every record of the cleaned dataset satisfies
Year ∈ [2010, 2025], Mileage ∈ [0, 300000], Price ∈ (0, 400000]; the seven
filtered columns are non-null by the type of `Record` (note that after
`astype(str)` the four categorical columns of the `dropna` subset cannot be
null: a missing cell is the string "nan").  Violating records are dropped
by the corresponding filter. -/
theorem C6_clean_invariants (rows : List RawRecord) (r : Record)
    (h : r ∈ _clean_df rows) :
    (2010 ≤ r.year ∧ r.year ≤ 2025) ∧
    (0 ≤ r.mileage ∧ r.mileage ≤ 300000) ∧
    (0 < r.price ∧ r.price ≤ 400000) := by
  unfold _clean_df at h
  simp only [List.mem_filterMap, List.mem_filter] at h
  obtain ⟨c, ⟨⟨⟨⟨_, hcomp⟩, hy⟩, hm⟩, hp⟩, htr⟩ := h
  rcases hy' : c.year with _ | y <;> rcases hm' : c.mileage with _ | m <;>
    rcases hp' : c.price with _ | p <;>
    simp only [toRecord, hy', hm', hp', reduceCtorEq, Option.some.injEq] at htr
  rw [yearOk, hy'] at hy
  rw [mileageOk, hm'] at hm
  rw [priceOk, hp'] at hp
  simp only [Bool.and_eq_true, decide_eq_true_eq] at hy hm hp
  subst htr
  exact ⟨hy, hm, hp⟩

/-- Witness for C6: the cleaned one-row table contains the Toyota record,
which the theorem then bounds. -/
theorem C6_witness :
    (2010 ≤ toyota.year ∧ toyota.year ≤ 2025) ∧
    (0 ≤ toyota.mileage ∧ toyota.mileage ≤ 300000) ∧
    (0 < toyota.price ∧ toyota.price ≤ 400000) :=
  C6_clean_invariants [rawToyota] toyota (by decide)

/-! ### Dispatcher error handling (claims C2, C3, C4, C7) -/

/-- Claim C2 (amended): for every invocation on an already-initialized
state, or one whose initialization succeeds (`_check_columns` passes), the
dispatcher returns a well-formed payload — success object or structured
error object — and every handler-raised error is caught at the `try` of
`call_tool`.  (An initialization failure, by contrast, is raised before the
`try` block and propagates to the caller.) -/
theorem C2_dispatch_payload (fitReg : FitFun) (t : RawTable) (st : ServerState)
    (name : String) (args : Args)
    (h : (st.df.isSome ∧ st.model.isSome) ∨ ∃ t', _check_columns t = Except.ok t') :
    ∃ st' p, call_tool fitReg t st name args = Except.ok (st', p) := by
  unfold call_tool lazyInit init_data_and_model
  rcases h with ⟨h1, h2⟩ | ⟨t', ht⟩
  · obtain ⟨d, hd⟩ := Option.isSome_iff_exists.mp h1
    obtain ⟨m, hm⟩ := Option.isSome_iff_exists.mp h2
    simp only [hd, hm, Option.isNone_some, Bool.or_self, Bool.false_eq_true,
      if_false]
    exact ⟨st, _, rfl⟩
  · cases hc : (st.df.isNone || st.model.isNone) with
    | false =>
      simp only [hc, Bool.false_eq_true, if_false]
      exact ⟨st, _, rfl⟩
    | true =>
      simp only [hc, if_true, ht]
      exact ⟨_, _, rfl⟩

/-- Witness for C2: a well-formed table and any tool name yield a payload. -/
theorem C2_witness :
    ∃ st' p, call_tool fitReg0 rawGood initialState "filter_cars" ({} : Args) =
      Except.ok (st', p) :=
  C2_dispatch_payload fitReg0 rawGood initialState "filter_cars" {}
    (Or.inr ⟨rawGood, by decide⟩)

/-- Counterexample to C2 as stated: a source table missing the required
columns makes the lazy initialization (which runs BEFORE the `try` block of
`call_tool`) raise, so the call produces no payload at all — the error
propagates to the caller instead of being converted. -/
theorem C2_counterexample :
    (call_tool fitReg0 rawBad initialState "filter_cars" ({} : Args)).toOption =
      none := by
  decide

/-- Claim C3 (amended): on an already-initialized state, an unrecognized
tool name yields exactly the payload `{"error": "Unknown tool: <name>"}`
(no `args` key), raises nothing, and leaves the state unchanged.  On an
UNINITIALIZED state, however, the lazy initializer still runs first — see
the counterexample. -/
theorem C3_unknown_tool (fitReg : FitFun) (t : RawTable) (st : ServerState)
    (name : String) (args : Args) (h1 : st.df.isSome) (h2 : st.model.isSome)
    (h3 : ¬ name ∈ toolNames) :
    call_tool fitReg t st name args =
      Except.ok (st, Payload.err ("Unknown tool: " ++ name) none) := by
  simp only [toolNames, List.mem_cons, List.not_mem_nil, or_false, not_or] at h3
  obtain ⟨hn1, hn2, hn3, hn4, hn5⟩ := h3
  obtain ⟨d, hd⟩ := Option.isSome_iff_exists.mp h1
  obtain ⟨m, hm⟩ := Option.isSome_iff_exists.mp h2
  unfold call_tool lazyInit
  simp only [hd, hm, Option.isNone_some, Bool.or_self, Bool.false_eq_true,
    if_false, hn1, hn2, hn3, hn4, hn5, ite_false]

/-- Witness for C3: an unknown name against the initialized state returns
the unknown-tool payload and the very same state. -/
theorem C3_witness :
    call_tool fitReg0 rawGood stInit0 "nope" ({} : Args) =
      Except.ok (stInit0, Payload.err ("Unknown tool: " ++ "nope") none) :=
  C3_unknown_tool fitReg0 rawGood stInit0 "nope" {} (by decide) (by decide)
    (by decide)

/-- Counterexample to C3 as stated: invoking the unknown tool "nope" on the
UNINITIALIZED state does touch dispatcher state — the lazy initializer runs
first and fills all three slots (`df.isSome` becomes true), even though the
payload is the unknown-tool error. -/
theorem C3_counterexample :
    (call_tool fitReg0 rawGood initialState "nope" ({} : Args)).map
        (fun r => (r.1.df.isSome, r.2)) =
      Except.ok (true, Payload.err "Unknown tool: nope" none) ∧
    initialState.df.isSome = false := by
  exact ⟨by decide, by decide⟩

/-- Claim C4 (amended): all five declared schemas set
`additionalProperties: false` — rejection of unexpected properties is
declared for the protocol host — but the dispatcher itself performs no
argument validation: on an initialized state each handler is executed even
when the argument object carries properties declared in no schema, and its
result (never a validation-failure payload) is returned. -/
theorem C4_no_dispatch_validation (fitReg : FitFun) (t : RawTable)
    (st : ServerState) (df : List Record) (m : PipelineModel) (fc : List String)
    (args : Args) (hdf : st.df = some df) (hm : st.model = some m)
    (hfc : st.featureColumns = some fc) (_hx : args.extra ≠ []) :
    (∀ s ∈ toolSchemas, s.additionalProperties = false) ∧
    call_tool fitReg t st "filter_cars" args =
      Except.ok (st, Payload.filterCars (tool_filter_cars df args).1
        (tool_filter_cars df args).2) ∧
    call_tool fitReg t st "recommend" args =
      Except.ok (st, match tool_recommend df args with
        | Except.ok (b, c, out) => Payload.recommend b c out
        | Except.error e => Payload.err e (some args)) ∧
    call_tool fitReg t st "estimate_price" args =
      Except.ok (st, match tool_estimate_price m fc args with
        | Except.ok (p, pr) => Payload.estimate p pr
        | Except.error e => Payload.err e (some args)) ∧
    call_tool fitReg t st "average_price" args =
      Except.ok (st, Payload.averagePrice (tool_average_price df args).1
        (tool_average_price df args).2.1 (tool_average_price df args).2.2) ∧
    call_tool fitReg t st "top_cars" args =
      Except.ok (st, Payload.topCars (tool_top_cars df args).1
        (tool_top_cars df args).2) := by
  refine ⟨by decide, ?_, ?_, ?_, ?_, ?_⟩ <;>
    unfold call_tool lazyInit <;>
    simp only [hdf, hm, hfc, Option.isNone_some, Bool.or_self,
      Bool.false_eq_true, if_false, String.reduceEq, ite_true, ite_false,
      reduceIte]

/-- Witness for C4: the filter_cars handler runs on an argument object
whose only content is the undeclared property "bogus". -/
theorem C4_witness :
    call_tool fitReg0 rawGood stInit0 "filter_cars" { extra := ["bogus"] } =
      Except.ok (stInit0, Payload.filterCars
        (tool_filter_cars [toyota] { extra := ["bogus"] }).1
        (tool_filter_cars [toyota] { extra := ["bogus"] }).2) :=
  (C4_no_dispatch_validation fitReg0 rawGood stInit0 [toyota] _ _
    { extra := ["bogus"] } rfl rfl rfl (by decide)).2.1

/-- Counterexample to C4 as stated: with an undeclared property "bogus" in
the arguments, the dispatcher does NOT reject the call — the `filter_cars`
handler executes and its success payload (count 1, the Toyota row) is
returned, not a validation-failure payload. -/
theorem C4_counterexample :
    call_tool fitReg0 rawGood stInit0 "filter_cars" { extra := ["bogus"] } =
      Except.ok (stInit0, Payload.filterCars 1 [projFilterOut toyota]) := by
  decide

/-- Claim C7: on an initialized state, `recommend` without `budget_max`
yields the ValidationError converted to the structured error payload (no
exception escapes the dispatcher), and with `budget_max = b` it returns
exactly the filter result with `Price_max` set to `b` and the other
criteria unchanged, sorted `(Price asc, Year desc)` and truncated with
default limit 10. -/
theorem C7_recommend_contract (fitReg : FitFun) (t : RawTable)
    (st : ServerState) (df : List Record) (args : Args)
    (hdf : st.df = some df) (hm : st.model.isSome) :
    (args.budgetMax = none →
      call_tool fitReg t st "recommend" args =
        Except.ok (st, Payload.err "budget_max is required" (some args))) ∧
    (∀ b, args.budgetMax = some b →
      call_tool fitReg t st "recommend" args =
        Except.ok (st, Payload.recommend b
          (pdHead (args.limit.getD 10)
            ((List.insertionSort (byKey Record.price Record.year)
              (_apply_filters df { args with priceMax := some b })).map
                projRecOut)).length
          (pdHead (args.limit.getD 10)
            ((List.insertionSort (byKey Record.price Record.year)
              (_apply_filters df { args with priceMax := some b })).map
                projRecOut)))) := by
  obtain ⟨m, hmm⟩ := Option.isSome_iff_exists.mp hm
  constructor
  · intro hb
    unfold call_tool lazyInit tool_recommend
    simp only [hdf, hmm, Option.isNone_some, Bool.or_self, Bool.false_eq_true,
      if_false, hb, String.reduceEq, reduceIte]
  · intro b hb
    unfold call_tool lazyInit tool_recommend
    simp only [hdf, hmm, Option.isNone_some, Bool.or_self, Bool.false_eq_true,
      if_false, hb, String.reduceEq, reduceIte]

/-- Witness for C7: both branches at a concrete initialized state — the
missing-budget error payload, and the budget-10000 recommendation list
(empty: the only record costs 12000). -/
theorem C7_witness :
    call_tool fitReg0 rawGood stInit0 "recommend" ({} : Args) =
      Except.ok (stInit0, Payload.err "budget_max is required" (some {})) ∧
    call_tool fitReg0 rawGood stInit0 "recommend" { budgetMax := some 10000 } =
      Except.ok (stInit0, Payload.recommend 10000 0 []) :=
  ⟨(C7_recommend_contract fitReg0 rawGood stInit0 [toyota] {} rfl (by decide)).1
      rfl,
   (C7_recommend_contract fitReg0 rawGood stInit0 [toyota]
      { budgetMax := some 10000 } rfl (by decide)).2 10000 rfl⟩

/-! ### Lazy initialization (claim C9) -/

/-- Claim C9: lazy initialization is idempotent — once `lazyInit` has
succeeded, running it again returns the stored state unchanged (same
dataset, same model), and every subsequent tool invocation reuses that
state without rebuilding it. -/
theorem C9_lazy_init_idempotent (fitReg : FitFun) (t : RawTable)
    (st st₁ : ServerState) (h : lazyInit fitReg t st = Except.ok st₁) :
    lazyInit fitReg t st₁ = Except.ok st₁ ∧
    ∀ name args, ∃ p, call_tool fitReg t st₁ name args = Except.ok (st₁, p) := by
  have hinit : st₁.df.isSome ∧ st₁.model.isSome := by
    unfold lazyInit init_data_and_model at h
    cases hc : (st.df.isNone || st.model.isNone) with
    | true =>
      simp only [hc, if_true] at h
      cases hcheck : _check_columns t with
      | error e => rw [hcheck] at h; exact absurd h (by simp)
      | ok t' =>
        rw [hcheck] at h
        simp only [Except.ok.injEq] at h
        subst h
        exact ⟨rfl, rfl⟩
    | false =>
      simp only [hc, Bool.false_eq_true, if_false, Except.ok.injEq] at h
      subst h
      rw [Bool.or_eq_false_iff] at hc
      constructor
      · rcases hd : ServerState.df st with _ | d
        · rw [hd] at hc; simp at hc
        · simp [hd]
      · rcases hm : ServerState.model st with _ | m
        · rw [hm] at hc; simp at hc
        · simp [hm]
  obtain ⟨d, hd⟩ := Option.isSome_iff_exists.mp hinit.1
  obtain ⟨m, hm⟩ := Option.isSome_iff_exists.mp hinit.2
  constructor
  · unfold lazyInit
    simp [hd, hm]
  · intro name args
    unfold call_tool lazyInit
    simp only [hd, hm, Option.isNone_some, Bool.or_self, Bool.false_eq_true,
      if_false]
    exact ⟨_, rfl⟩

/-- Witness for C9: a first successful initialization from the empty state
yields `stInit0`; re-running the guard returns it unchanged and a
subsequent `filter_cars` call reuses it. -/
theorem C9_witness :
    lazyInit fitReg0 rawGood stInit0 = Except.ok stInit0 ∧
    ∃ p, call_tool fitReg0 rawGood stInit0 "filter_cars" ({} : Args) =
      Except.ok (stInit0, p) :=
  have h := C9_lazy_init_idempotent fitReg0 rawGood initialState stInit0
    (by decide)
  ⟨h.1, h.2 "filter_cars" {}⟩

/-! ### Unseen categories at estimation time (claim C8) -/

theorem encodeCat_unseen {cats : List String} {v : String} (h : ¬ v ∈ cats) :
    encodeCat cats v = cats.map (fun _ => 0) := by
  unfold encodeCat
  refine List.map_congr_left (fun c hc => ?_)
  exact if_neg (fun (he : c = v) => h (he ▸ hc))

/-- Claim C8: `estimate_price` never fails on categorical values unseen at
fit time: given the four required arguments it always returns a scalar
(the fitted pipeline's prediction on the assembled payload), and for each
of the six categorical features any value not observed in the training
data is encoded as the all-zero indicator vector over that feature's
fit-time vocabulary. -/
theorem C8_unseen_categories (fitReg : FitFun) (df : List Record) (args : Args)
    (y : Int) (mi : Rat) (ft tr : String)
    (h1 : args.year = some y) (h2 : args.mileage = some mi)
    (h3 : args.fuelType = some ft) (h4 : args.transmission = some tr) :
    (∃ p pr, tool_estimate_price (buildPipeline fitReg df) FEATURE_COLUMNS args =
        Except.ok (p, pr) ∧ pr = (buildPipeline fitReg df).predict p) ∧
    (∀ v, ¬ v ∈ df.map Record.fuelType →
      encodeCat (mkVocab df).fuelTypes v = (mkVocab df).fuelTypes.map (fun _ => 0)) ∧
    (∀ v, ¬ v ∈ df.map Record.transmission →
      encodeCat (mkVocab df).transmissions v =
        (mkVocab df).transmissions.map (fun _ => 0)) ∧
    (∀ v, ¬ v ∈ df.map Record.condition →
      encodeCat (mkVocab df).conditions v =
        (mkVocab df).conditions.map (fun _ => 0)) ∧
    (∀ v, ¬ v ∈ df.map Record.accident →
      encodeCat (mkVocab df).accidents v =
        (mkVocab df).accidents.map (fun _ => 0)) ∧
    (∀ v, ¬ v ∈ df.map Record.make →
      encodeCat (mkVocab df).makes v = (mkVocab df).makes.map (fun _ => 0)) ∧
    (∀ v, ¬ v ∈ df.map Record.model →
      encodeCat (mkVocab df).models v = (mkVocab df).models.map (fun _ => 0)) := by
  refine ⟨?_, ?_, ?_, ?_, ?_, ?_, ?_⟩
  · unfold tool_estimate_price
    rw [h1, h2, h3, h4]
    exact ⟨_, _, rfl, rfl⟩
  all_goals
    intro v hv
    refine encodeCat_unseen (fun hmem => hv ?_)
    simpa [mkVocab, List.mem_dedup] using hmem

/-- Witness for C8: estimating with the fuel type "Diesel", unseen in the
one-record training set, succeeds and its indicator block is all zeros. -/
theorem C8_witness :
    (∃ p pr, tool_estimate_price (buildPipeline fitReg0 [toyota])
        FEATURE_COLUMNS
        { year := some 2020, mileage := some 10000,
          fuelType := some "Diesel", transmission := some "Manual" } =
      Except.ok (p, pr) ∧
      pr = (buildPipeline fitReg0 [toyota]).predict p) ∧
    encodeCat (mkVocab [toyota]).fuelTypes "Diesel" =
      (mkVocab [toyota]).fuelTypes.map (fun _ => 0) :=
  have h := C8_unseen_categories fitReg0 [toyota]
    { year := some 2020, mileage := some 10000, fuelType := some "Diesel",
      transmission := some "Manual" } 2020 10000 "Diesel" "Manual"
    rfl rfl rfl rfl
  ⟨h.1, h.2.1 "Diesel" (by decide)⟩

end AutoAdvisor
